import Mathlib

/-!
Verification of the vignette freedesktop thumbnail-cache module.

This file embeds the functions of src/vignette/__init__.py (the installed
module of the repository) in Lean 4 and proves the frozen claims about them.
Python strings are Lean String, machine integers are Nat or Int, exceptions
are the error side of Except, and the filesystem plus the process
environment are explicit values threaded through the functions.
-/

set_option autoImplicit false
set_option maxRecDepth 100000

namespace Vignette

/-- Python str.startswith, computed on the character lists. -/
def strStartsWith (s p : String) : Bool := p.data.isPrefixOf s.data

/-- Python str.endswith, computed on the character lists. -/
def strEndsWith (s p : String) : Bool := p.data.reverse.isPrefixOf s.data.reverse

/-- Python str.split on a one-character separator. -/
def splitChar (sep : Char) : List Char → List String
  | [] => [""]
  | c :: rest =>
    let r := splitChar sep rest
    if c == sep then "" :: r
    else
      match r with
      | [] => [String.mk [c]]
      | h :: t => String.mk (c :: h.data) :: t

/-- Python os.path.join restricted to two POSIX path segments. -/
def joinPath (a b : String) : String :=
  if strStartsWith b "/" then b
  else if a = "" ∨ strEndsWith a "/" then a ++ b
  else a ++ "/" ++ b

/-- The component loop of posixpath.normpath: drop empty and dot components
and resolve double dots against the accumulated prefix. -/
def normpathComps (initialSlashes : Nat) (comps : List String) : List String :=
  comps.foldl
    (fun acc comp =>
      if comp = "" ∨ comp = "." then acc
      else if comp ≠ ".." ∨ (initialSlashes = 0 ∧ acc = []) ∨ acc.getLast? = some ".." then
        acc ++ [comp]
      else if acc ≠ [] then acc.dropLast
      else acc)
    []

/-- Python posixpath.normpath: collapse separators, drop single dots, resolve
double dots, preserving the POSIX one-or-two leading slashes rule. -/
def normpath (p : String) : String :=
  if p = "" then "." else
  let initialSlashes : Nat :=
    if strStartsWith p "/" then
      (if strStartsWith p "//" ∧ ¬ strStartsWith p "///" then 2 else 1)
    else 0
  let comps := normpathComps initialSlashes (splitChar '/' p.data)
  let out := String.mk (List.replicate initialSlashes '/') ++ String.intercalate "/" comps
  if out = "" then "." else out

/-- Python os.path.abspath relative to an explicit current working directory. -/
def abspath (cwd p : String) : String :=
  normpath (if strStartsWith p "/" then p else joinPath cwd p)

/-- Python os.path.dirname for POSIX paths. -/
def dirname (p : String) : String :=
  let cs := p.data
  let tailLen := (cs.reverse.takeWhile (fun c => ¬ c = '/')).length
  let head := cs.take (cs.length - tailLen)
  if head ≠ [] ∧ ¬ head.all (fun c => c = '/') then
    String.mk ((head.reverse.dropWhile (fun c => c = '/')).reverse)
  else String.mk head

/-- UTF-8 encoding of one Unicode code point as a list of byte values. -/
def utf8Char (n : Nat) : List Nat :=
  if n < 128 then [n]
  else if n < 2048 then [192 + n / 64, 128 + n % 64]
  else if n < 65536 then [224 + n / 4096, 128 + n / 64 % 64, 128 + n % 64]
  else [240 + n / 262144, 128 + n / 4096 % 64, 128 + n / 64 % 64, 128 + n % 64]

/-- UTF-8 encoding of a string as a list of byte values. -/
def utf8str (s : String) : List Nat :=
  (s.data.map (fun c => utf8Char c.toNat)).flatten

/-- The byte values urllib.parse.quote leaves unescaped with its default safe
set plus the slash: ASCII letters, digits, underscore, dot, dash, tilde, slash. -/
def quoteSafe (b : Nat) : Bool :=
  (65 ≤ b && b ≤ 90) || (97 ≤ b && b ≤ 122) || (48 ≤ b && b ≤ 57) ||
    b == 95 || b == 46 || b == 45 || b == 126 || b == 47

/-- One hexadecimal digit, upper case. -/
def hexUpperChar (n : Nat) : Char := if n < 10 then Char.ofNat (48 + n) else Char.ofNat (55 + n)

/-- One hexadecimal digit, lower case. -/
def hexLowerChar (n : Nat) : Char := if n < 10 then Char.ofNat (48 + n) else Char.ofNat (87 + n)

/-- Percent-encoding of one byte as urllib.parse.quote does. -/
def quoteByte (b : Nat) : List Char :=
  if quoteSafe b then [Char.ofNat b] else ['%', hexUpperChar (b / 16), hexUpperChar (b % 16)]

/-- Python urllib.request.pathname2url on POSIX: percent-quote the path with
the slash kept unescaped. -/
def pathname2url (p : String) : String :=
  String.mk (((utf8str p).map quoteByte).flatten)

/-! MD5, as used through hashlib in the source to derive cache file names.
All 32-bit arithmetic is done on Nat with explicit reduction modulo 2^32. -/

def M32 : Nat := 4294967296

def add32 (a b : Nat) : Nat := (a + b) % M32

/-- Bitwise complement on 32 bits, for arguments below 2^32. -/
def lnot32 (a : Nat) : Nat := (M32 - 1) - a

/-- Rotate a 32-bit value left by n bits. -/
def rotl32 (x n : Nat) : Nat := ((x <<< n) % M32) ||| (x >>> (32 - n))

/-- The 64 MD5 sine-table constants of RFC 1321. -/
def md5K : List Nat :=
  [0xd76aa478, 0xe8c7b756, 0x242070db, 0xc1bdceee,
   0xf57c0faf, 0x4787c62a, 0xa8304613, 0xfd469501,
   0x698098d8, 0x8b44f7af, 0xffff5bb1, 0x895cd7be,
   0x6b901122, 0xfd987193, 0xa679438e, 0x49b40821,
   0xf61e2562, 0xc040b340, 0x265e5a51, 0xe9b6c7aa,
   0xd62f105d, 0x02441453, 0xd8a1e681, 0xe7d3fbc8,
   0x21e1cde6, 0xc33707d6, 0xf4d50d87, 0x455a14ed,
   0xa9e3e905, 0xfcefa3f8, 0x676f02d9, 0x8d2a4c8a,
   0xfffa3942, 0x8771f681, 0x6d9d6122, 0xfde5380c,
   0xa4beea44, 0x4bdecfa9, 0xf6bb4b60, 0xbebfbc70,
   0x289b7ec6, 0xeaa127fa, 0xd4ef3085, 0x04881d05,
   0xd9d4d039, 0xe6db99e5, 0x1fa27cf8, 0xc4ac5665,
   0xf4292244, 0x432aff97, 0xab9423a7, 0xfc93a039,
   0x655b59c3, 0x8f0ccc92, 0xffeff47d, 0x85845dd1,
   0x6fa87e4f, 0xfe2ce6e0, 0xa3014314, 0x4e0811a1,
   0xf7537e82, 0xbd3af235, 0x2ad7d2bb, 0xeb86d391]

/-- The 64 MD5 per-round left-rotation amounts. -/
def md5S : List Nat :=
  [7, 12, 17, 22, 7, 12, 17, 22, 7, 12, 17, 22, 7, 12, 17, 22,
   5, 9, 14, 20, 5, 9, 14, 20, 5, 9, 14, 20, 5, 9, 14, 20,
   4, 11, 16, 23, 4, 11, 16, 23, 4, 11, 16, 23, 4, 11, 16, 23,
   6, 10, 15, 21, 6, 10, 15, 21, 6, 10, 15, 21, 6, 10, 15, 21]

/-- The MD5 nonlinear function for round i. -/
def md5F (i b c d : Nat) : Nat :=
  if i < 16 then (b &&& c) ||| (lnot32 b &&& d)
  else if i < 32 then (d &&& b) ||| (lnot32 d &&& c)
  else if i < 48 then b ^^^ c ^^^ d
  else c ^^^ (b ||| lnot32 d)

/-- The MD5 message-word index for round i. -/
def md5g (i : Nat) : Nat :=
  if i < 16 then i
  else if i < 32 then (5 * i + 1) % 16
  else if i < 48 then (3 * i + 5) % 16
  else (7 * i) % 16

/-- One MD5 round on the running state, taking the 16 message words x. -/
def md5round (x : List Nat) (st : Nat × Nat × Nat × Nat) (i : Nat) : Nat × Nat × Nat × Nat :=
  let a := st.1
  let b := st.2.1
  let c := st.2.2.1
  let d := st.2.2.2
  let f := add32 (add32 (add32 a (md5F i b c d)) (md5K.getD i 0)) (x.getD (md5g i) 0)
  (d, add32 b (rotl32 f (md5S.getD i 0)), b, c)

/-- Group a byte list into little-endian 32-bit words. -/
def toWords : List Nat → List Nat
  | a :: b :: c :: d :: rest => (a + 256 * b + 65536 * c + 16777216 * d) :: toWords rest
  | _ => []

/-- Process one 64-byte block. -/
def md5block (st : Nat × Nat × Nat × Nat) (block : List Nat) : Nat × Nat × Nat × Nat :=
  let x := toWords block
  let r := (List.range 64).foldl (md5round x) st
  (add32 st.1 r.1, add32 st.2.1 r.2.1, add32 st.2.2.1 r.2.2.1, add32 st.2.2.2 r.2.2.2)

/-- Little-endian byte decomposition of a number into k bytes. -/
def leBytes : Nat → Nat → List Nat
  | 0, _ => []
  | k + 1, n => n % 256 :: leBytes k (n / 256)

/-- MD5 padding: one 0x80 byte, zeros to 56 mod 64, then the 64-bit bit length. -/
def md5pad (msg : List Nat) : List Nat :=
  let pad := (120 - (msg.length + 1) % 64) % 64
  msg ++ [128] ++ List.replicate pad 0 ++ leBytes 8 ((8 * msg.length) % (2 ^ 64))

/-- Fold the block function over the given number of leading 64-byte blocks. -/
def md5iter : Nat → (Nat × Nat × Nat × Nat) → List Nat → Nat × Nat × Nat × Nat
  | 0, st, _ => st
  | k + 1, st, bytes => md5iter k (md5block st (bytes.take 64)) (bytes.drop 64)

/-- The 16-byte MD5 digest of a byte list. -/
def md5bytes (msg : List Nat) : List Nat :=
  let padded := md5pad msg
  let st := md5iter (padded.length / 64) (1732584193, 4023233417, 2562383102, 271733878) padded
  leBytes 4 st.1 ++ leBytes 4 st.2.1 ++ leBytes 4 st.2.2.1 ++ leBytes 4 st.2.2.2

/-- Lowercase hexadecimal MD5 digest, as hashlib.md5( ).hexdigest() returns. -/
def md5hex (msg : List Nat) : String :=
  String.mk (((md5bytes msg).map (fun b => [hexLowerChar (b / 16), hexLowerChar (b % 16)])).flatten)


/-- Known-answer test of the MD5 embedding, RFC 1321 test vector for abc. -/
theorem md5hex_abc : md5hex (utf8str "abc") = "900150983cd24fb0d6963f7d28e17f72" := by decide

/-- Known-answer test of the MD5 embedding on the empty input. -/
theorem md5hex_empty : md5hex [] = "d41d8cd98f00b204e9800998ecf8427e" := by decide

/-! The identity canonicalizer of the module. -/

/-- One character of the scheme-body class of URI_RE: ASCII letter or digit
or dot or plus or dash (the re.I flag makes the letters case-insensitive). -/
def isSchemeChar (c : Char) : Bool := c.isAlpha || c.isDigit || c == '.' || c == '+' || c == '-'

/-- Scan the tail of a candidate scheme for its terminating colon. -/
def uriMatchChars : List Char → Bool
  | [] => false
  | c :: rest => if c == ':' then true else if isSchemeChar c then uriMatchChars rest else false

/-- Whether URI_RE (one case-insensitive letter, then scheme characters, then
a colon) matches at the start of the string, as re.match does. -/
def uriMatch (s : String) : Bool :=
  match s.data with
  | [] => false
  | c :: rest => c.isAlpha && uriMatchChars rest

/-- Embeds _any2uri, lines 237-246: return the argument unchanged when URI_RE
matches, else a file URI of the percent-encoded absolute path. -/
def _any2uri (cwd sth : String) : String :=
  if uriMatch sth then sth else "file://" ++ pathname2url (abspath cwd sth)

/-- Embeds hash_name, lines 315-320: lowercase hex MD5 of the UTF-8 canonical URI. -/
def hash_name (cwd src : String) : String := md5hex (utf8str (_any2uri cwd src))

/-! Python values and errors. -/

/-- The Python exception kinds the embedded code can raise. -/
inductive PyErr
  | valueError
  | typeError
  | keyError (key : String)
  | osError
  | attributeError
deriving DecidableEq

deriving instance DecidableEq for Except

/-- A value passed as a size argument: an int or a string, as in Python. -/
inductive SizeArg
  | int (i : Int)
  | str (s : String)
deriving DecidableEq

/-- What _any2size returns: the alias branches return a pair, but the numeric
range branches of the source return a bare int. -/
inductive SizeRet
  | tup (px : Nat) (name : String)
  | bare (px : Nat)
deriving DecidableEq

/-- Embeds _any2size, lines 221-231. The membership tests of the first two
branches compare against mixed tuples; the comparison 0 < size raises
TypeError in Python 3 when size is a string; the fallthrough raises
ValueError. -/
def _any2size (size : SizeArg) : Except PyErr SizeRet :=
  if size = .str "normal" ∨ size = .int 128 ∨ size = .str "128" then .ok (.tup 128 "normal")
  else if size = .str "large" ∨ size = .int 256 ∨ size = .str "256" then .ok (.tup 256 "large")
  else
    match size with
    | .str _ => .error .typeError
    | .int i =>
      if 0 < i ∧ i ≤ 128 then .ok (.bare 128)
      else if 128 < i ∧ i ≤ 256 then .ok (.bare 256)
      else .error .valueError

/-- Subscript [0] on a _any2size result; a bare int is not subscriptable. -/
def SizeRet.sub0 : SizeRet → Except PyErr Nat
  | .tup px _ => .ok px
  | .bare _ => .error .typeError

/-- Subscript [1] on a _any2size result; a bare int is not subscriptable. -/
def SizeRet.sub1 : SizeRet → Except PyErr String
  | .tup _ name => .ok name
  | .bare _ => .error .typeError

/-- Numeric value of a list of decimal digits. -/
def digitsVal (cs : List Char) : Nat := cs.foldl (fun a c => 10 * a + (c.toNat - 48)) 0

/-- Models int(float(s)) on plain decimal literals: optional sign, digits,
optional fractional part, truncated toward zero; none models the ValueError
float raises on anything else. -/
def parsePyFloat (s : String) : Option Int :=
  let p := s.data
  let neg := p.headD ' ' == '-'
  let cs := if p.headD ' ' == '-' || p.headD ' ' == '+' then p.tail else p
  let ip := cs.takeWhile Char.isDigit
  let rest := cs.dropWhile Char.isDigit
  let ok : Bool :=
    match rest with
    | [] => !ip.isEmpty
    | c :: fr => c == '.' && (!ip.isEmpty || !fr.isEmpty) && fr.all Char.isDigit
  if ok then some (if neg then -(digitsVal ip : Int) else (digitsVal ip : Int)) else none

/-! Metadata keys and dictionaries. -/

def KEY_URI : String := "Thumb::URI"
def KEY_MTIME : String := "Thumb::MTime"
def KEY_WIDTH : String := "Thumb::Image::Width"
def KEY_HEIGHT : String := "Thumb::Image::Height"
def KEY_SIZE : String := "Thumb::Size"

/-- Embedded PNG text metadata and Python string dicts: ordered key-value
pairs where the first occurrence of a key wins on lookup. -/
abbrev Meta := List (String × String)

def metaLookup (d : Meta) (k : String) : Option String :=
  (d.find? (fun kv => kv.1 == k)).map (fun kv => kv.2)

/-- Python dict.setdefault: keep an existing key, append a missing one. -/
def dictSetdefault (d : Meta) (k v : String) : Meta :=
  if (metaLookup d k).isSome then d else d ++ [(k, v)]

/-- Python dict assignment d[k] = v: overwrite in place or append. -/
def metaSet (d : Meta) (k v : String) : Meta :=
  if (metaLookup d k).isSome then d.map (fun kv => if kv.1 == k then (k, v) else kv)
  else d ++ [(k, v)]

/-! The modelled filesystem and environment. -/

/-- The dictionary a backend get_info method returns. -/
structure ThumbInfo where
  mtime : Int
  uri : String
deriving DecidableEq

/-- One file of the modelled filesystem: its embedded text metadata, its
modification time in whole seconds, its byte size, whether it decodes as an
image, and its pixel dimensions. -/
structure FileData where
  meta : Meta
  fmtime : Int
  fsize : Int
  decodable : Bool
  width : Int
  height : Int
deriving DecidableEq

/-- The filesystem: an association of paths to file data. Directories are not
modelled; the os.makedirs calls of the source are no-ops here. -/
structure FS where
  files : List (String × FileData)
deriving DecidableEq

def FS.lookup (fs : FS) (p : String) : Option FileData :=
  (fs.files.find? (fun e => e.1 == p)).map (fun e => e.2)

/-- os.path.exists on the modelled filesystem. -/
def FS.exists_ (fs : FS) (p : String) : Bool := (fs.lookup p).isSome

/-- Writing a file: the new entry shadows any previous one. -/
def FS.set (fs : FS) (p : String) (d : FileData) : FS := ⟨(p, d) :: fs.files⟩

/-- Removing a file, as the source side of a rename or move. -/
def FS.remove (fs : FS) (p : String) : FS := ⟨fs.files.filter (fun e => e.1 != p)⟩

/-- int(os.path.getmtime(p)): OSError on a missing file. -/
def FS.getmtime (fs : FS) (p : String) : Except PyErr Int :=
  match fs.lookup p with
  | none => .error .osError
  | some d => .ok d.fmtime

/-- os.path.getsize(p): OSError on a missing file. -/
def FS.getsize (fs : FS) (p : String) : Except PyErr Int :=
  match fs.lookup p with
  | none => .error .osError
  | some d => .ok d.fsize

/-- The process environment: the XDG cache directory (already env-resolved and
user-expanded), the working directory, and which backend imports succeed. -/
structure Env where
  xdgcache : String
  cwd : String
  qtAvail : Bool
  magickAvail : Bool
  pilAvail : Bool
deriving DecidableEq

/-- Which backend class a bound backend is. -/
inductive BackendKind
  | qt
  | magick
  | pil
deriving DecidableEq

/-- Embeds get_backend, lines 646-651: probe BACKENDS = [QtBackend,
MagickBackend, PilBackend] in order and return the first available one; the
fallthrough returns None when no backend is available. -/
def get_backend (e : Env) : Option BackendKind :=
  if e.qtAvail then some .qt
  else if e.magickAvail then some .magick
  else if e.pilAvail then some .pil
  else none

/-- Embeds the module path-prefix helper, lines 309-312: the normalized XDG
cache directory joined with the thumbnails directory. -/
def thumbnailsDir (xdgcache : String) : String :=
  joinPath (normpath xdgcache) "thumbnails"

/-! The three backend get_info readers (claim C9). -/

/-- Embeds PilBackend.get_info, lines 480-489: img.info[key] raises KeyError
when the mandatory key is absent, int(float(s)) raises ValueError when s does
not parse, then the URI key is read the same way. -/
def pil_get_info (m : Meta) : Except PyErr (Option ThumbInfo) :=
  match metaLookup m KEY_MTIME with
  | none => .error (.keyError KEY_MTIME)
  | some s =>
    match parsePyFloat s with
    | none => .error .valueError
    | some mt =>
      match metaLookup m KEY_URI with
      | none => .error (.keyError KEY_URI)
      | some u => .ok (some ⟨mt, u⟩)

/-- QImage.text, which returns the empty string for a missing key. -/
def qt_text (m : Meta) (k : String) : String := (metaLookup m k).getD ""

/-- Embeds QtBackend.get_info, lines 633-643: None for an image that does not
load; otherwise int(float(text or 0)), so a missing mtime key silently
becomes the integer 0. -/
def qt_get_info (d : FileData) : Except PyErr (Option ThumbInfo) :=
  if d.decodable then
    match (if qt_text d.meta KEY_MTIME = "" then some 0
           else parsePyFloat (qt_text d.meta KEY_MTIME)) with
    | none => .error .valueError
    | some mt => .ok (some ⟨mt, qt_text d.meta KEY_URI⟩)
  else .ok none

/-- PythonMagick attribute read, empty for a missing attribute. -/
def magick_attr (m : Meta) (k : String) : String := (metaLookup m k).getD ""

/-- Embeds MagickBackend.get_info, lines 564-573: None when the image cannot
be opened; otherwise int(float(attribute or 0)), so a missing mtime silently
becomes the integer 0. -/
def magick_get_info (d : FileData) : Except PyErr (Option ThumbInfo) :=
  if d.decodable then
    match (if magick_attr d.meta KEY_MTIME = "" then some 0
           else parsePyFloat (magick_attr d.meta KEY_MTIME)) with
    | none => .error .valueError
    | some mt => .ok (some ⟨mt, magick_attr d.meta KEY_URI⟩)
  else .ok none

/-- get_backend().get_info(p) on the modelled filesystem. PIL raises IOError
for a missing or undecodable file; Qt and Magick return None for it. With no
backend available, get_backend() returns None and the attribute access on
None raises AttributeError. -/
def backend_get_info (e : Env) (fs : FS) (p : String) : Except PyErr (Option ThumbInfo) :=
  match get_backend e with
  | none => .error .attributeError
  | some .pil =>
    match fs.lookup p with
    | none => .error .osError
    | some d => if d.decodable then pil_get_info d.meta else .error .osError
  | some .qt =>
    match fs.lookup p with
    | none => .ok none
    | some d => qt_get_info d
  | some .magick =>
    match fs.lookup p with
    | none => .ok none
    | some d => magick_get_info d

/-! The store operations. -/

/-- Embeds is_thumbnail_valid, lines 714-716: the stored URI and mtime must
both equal the expected ones; subscripting the None a failed Qt or Magick
get_info returns raises TypeError. -/
def is_thumbnail_valid (e : Env) (fs : FS) (thumbnail uri : String) (mtime : Int) :
    Except PyErr Bool := do
  match ← backend_get_info e fs thumbnail with
  | none => .error .typeError
  | some info => .ok (info.uri == uri && info.mtime == mtime)

/-- Embeds _any2mtime, lines 249-253: read and truncate the file mtime when no
explicit mtime is given; int(float(m)) is the identity on the integer
arguments modelled here. -/
def _any2mtime (fs : FS) (origname : String) (mtime : Option Int) : Except PyErr Int :=
  match mtime with
  | none => fs.getmtime origname
  | some m => .ok m

/-- Embeds build_thumbnail_path, lines 691-711: the source is returned
unchanged when it already lies under the size directory of the cache
(self-reference short-circuit), else the MD5 file name under that directory. -/
def build_thumbnail_path (e : Env) (src : String) (size : SizeArg) : Except PyErr String := do
  let r ← _any2size size
  let sizename ← r.sub1
  let pfx := joinPath (thumbnailsDir e.xdgcache) sizename
  if strStartsWith src (pfx ++ "/") then .ok src
  else .ok (joinPath pfx (hash_name e.cwd src ++ ".png"))

/-- The fail-marker path for an app name and source, as computed inline in
is_thumbnail_failed (lines 344-349) and put_fail (lines 418-423). -/
def fail_path (e : Env) (src appname : String) : String :=
  joinPath (joinPath (joinPath (thumbnailsDir e.xdgcache) "fail") appname)
    (hash_name e.cwd src ++ ".png")

/-- Embeds is_thumbnail_failed, lines 323-350: the fail marker must exist and
pass the same validity check as a thumbnail, against the canonical URI and
the given or live mtime. -/
def is_thumbnail_failed (e : Env) (fs : FS) (src appname : String) (mtime : Option Int) :
    Except PyErr Bool := do
  let uri := _any2uri e.cwd src
  let mt ← _any2mtime fs src mtime
  let thumb := fail_path e src appname
  if fs.exists_ thumb then is_thumbnail_valid e fs thumb uri mt
  else .ok false

/-- Embeds _info_dict, lines 256-264: the mandatory keys are only filled in
through setdefault, so caller-supplied values are kept; the mtime default may
need to read the source file mtime. -/
def _info_dict (fs : FS) (cwd : String) (d : Option Meta) (mtime : Option Int)
    (src : Option String) : Except PyErr Meta := do
  let d0 := d.getD []
  let d1 ←
    if mtime.isSome ∨ src.isSome then
      match mtime with
      | some m => pure (dictSetdefault d0 KEY_MTIME (toString m))
      | none =>
        match src with
        | some s => do
          let mt ← fs.getmtime s
          pure (dictSetdefault d0 KEY_MTIME (toString mt))
        | none => Except.error PyErr.typeError
    else pure d0
  match src with
  | some s => pure (dictSetdefault d1 KEY_URI (_any2uri cwd s))
  | none => pure d1

/-- The size candidates try_get_thumbnail probes: Large before Normal when the
size argument is omitted, else only the given size. -/
def try_get_sizes (size : Option SizeArg) : List SizeArg :=
  match size with
  | none => [.str "large", .str "normal"]
  | some s => [s]

/-- The candidate loop of try_get_thumbnail, lines 742-748: compute the path
for each size; when it exists, return it if it equals the source itself (the
self-reference bypass) or if it is valid; otherwise try the next size; None
once the candidates are exhausted. -/
def try_get_loop (e : Env) (fs : FS) (src uri : String) (mt : Int) :
    List SizeArg → Except PyErr (Option String)
  | [] => .ok none
  | s :: rest => do
    let thumb ← build_thumbnail_path e src s
    if fs.exists_ thumb then
      if src = thumb then .ok (some src)
      else do
        let v ← is_thumbnail_valid e fs thumb uri mt
        if v then .ok (some thumb) else try_get_loop e fs src uri mt rest
    else try_get_loop e fs src uri mt rest

/-- Embeds try_get_thumbnail, lines 719-748. -/
def try_get_thumbnail (e : Env) (fs : FS) (src : String) (size : Option SizeArg)
    (mtime : Option Int) : Except PyErr (Option String) := do
  let mt ← _any2mtime fs src mtime
  let uri := _any2uri e.cwd src
  try_get_loop e fs src uri mt (try_get_sizes size)

/-- The file any backend create_fail writes: a one-pixel image carrying
exactly the given metadata keys. -/
def failFileData (info : Meta) : FileData := ⟨info, 0, 0, true, 1, 1⟩

/-- Effect of backend.create_fail(dest, info): the marker is built in a
temporary file and renamed onto dest, which is returned. -/
def backend_create_fail (fs : FS) (dest : String) (info : Meta) : Except PyErr (String × FS) :=
  .ok (dest, fs.set dest (failFileData info))

/-- Embeds put_fail, lines 399-426: derive the destination from the hashed
URI, build the mandatory metadata, then let the backend write the marker;
with no backend bound the attribute access on None raises. -/
def put_fail (e : Env) (fs : FS) (src appname : String) (mtime : Option Int)
    (moreinfo : Option Meta) : Except PyErr (String × FS) := do
  let dest := fail_path e src appname
  let info ← _info_dict fs e.cwd moreinfo mtime (some src)
  match get_backend e with
  | none => .error .attributeError
  | some _ => backend_create_fail fs dest info

/-- Effect of backend.create_thumbnail(src, dest, size, info): None when the
source does not decode, otherwise the written thumbnail file. PIL embeds the
source pixel dimensions besides the given keys; Qt and Magick store only the
given keys. -/
def backend_create_thumbnail (b : BackendKind) (dta : FileData) (info : Meta) :
    Option FileData :=
  if dta.decodable then
    some ⟨(match b with
           | .pil => info ++ [(KEY_WIDTH, toString dta.width), (KEY_HEIGHT, toString dta.height)]
           | .magick => info
           | .qt => info),
          0, 0, true, dta.width, dta.height⟩
  else none

/-- Embeds create_thumbnail, lines 654-688: size class and source byte size
first, then the destination path, the mandatory metadata plus Thumb::Size,
then the backend call; when the backend returns None and an app name was
given, a fail marker is written and None is returned. -/
def create_thumbnail (e : Env) (fs : FS) (src : String) (size : SizeArg)
    (moreinfo : Option Meta) (use_fail_appname : Option String) :
    Except PyErr (Option String × FS) := do
  let r ← _any2size size
  let px ← r.sub0
  let filesize ← fs.getsize src
  let dest ← build_thumbnail_path e src (.int (px : Int))
  let info0 ← _info_dict fs e.cwd moreinfo none (some src)
  let info := metaSet info0 KEY_SIZE (toString filesize)
  match get_backend e with
  | none => .error .attributeError
  | some b =>
    match (fs.lookup src).bind (fun dta => backend_create_thumbnail b dta info) with
    | some nd => .ok (some dest, fs.set dest nd)
    | none =>
      match use_fail_appname with
      | some app => do
        let r2 ← put_fail e fs src app none none
        .ok (none, r2.2)
      | none => .ok (none, fs)

/-- Effect of backend.update_metadata(tmp, info) on the data of tmp: PIL
rewrites the image with exactly the given text keys, raising IOError when the
file cannot be opened; Qt and Magick also write the pixel dimension keys and
return None, leaving the file unchanged, when it cannot be opened. -/
def backend_update_metadata (b : BackendKind) (dta : FileData) (info : Meta) :
    Except PyErr (Option FileData) :=
  match b with
  | .pil =>
    if dta.decodable then .ok (some ⟨info, dta.fmtime, dta.fsize, true, dta.width, dta.height⟩)
    else .error .osError
  | .magick =>
    if dta.decodable then
      .ok (some ⟨info ++ [(KEY_WIDTH, toString dta.width), (KEY_HEIGHT, toString dta.height)],
        dta.fmtime, dta.fsize, true, dta.width, dta.height⟩)
    else .ok none
  | .qt =>
    if dta.decodable then
      .ok (some ⟨info ++ [(KEY_WIDTH, toString dta.width), (KEY_HEIGHT, toString dta.height)],
        dta.fmtime, dta.fsize, true, dta.width, dta.height⟩)
    else .ok none

/-- Embeds put_thumbnail, lines 353-396, at the filesystem-effect level: the
destination ends up holding the caller's thumb file with the mandatory
metadata attached, the thumb file is consumed, and dest is returned. The
temp-and-rename branch structure itself is modelled separately as an
operation trace for the atomicity claim. -/
def put_thumbnail (e : Env) (fs : FS) (src : String) (size : SizeArg) (thumb : String)
    (mtime : Option Int) (moreinfo : Option Meta) : Except PyErr (String × FS) := do
  let dest ← build_thumbnail_path e src size
  let dta ←
    match fs.lookup thumb with
    | some dta => pure dta
    | none => Except.error PyErr.osError
  let info ← _info_dict fs e.cwd moreinfo mtime (some src)
  match get_backend e with
  | none => .error .attributeError
  | some b => do
    let upd ← backend_update_metadata b dta info
    let nd := upd.getD dta
    .ok (dest, (fs.remove thumb).set dest nd)

/-- Embeds get_thumbnail, lines 751-787. -/
def get_thumbnail (e : Env) (fs : FS) (src : String) (size : Option SizeArg)
    (use_fail_appname : Option String) : Except PyErr (Option String × FS) := do
  let thumb ← try_get_thumbnail e fs src size none
  match thumb with
  | some t => .ok (some t, fs)
  | none => do
    let skip ←
      match use_fail_appname with
      | some app => do
        let mt ← _any2mtime fs src none
        is_thumbnail_failed e fs src app (some mt)
      | none => pure false
    if skip then .ok (none, fs)
    else create_thumbnail e fs src (size.getD (.str "large")) none use_fail_appname

/-- The retrieve-or-generate operation exactly as the specification words it:
(a) a try_get hit is returned; (b) otherwise, when a fail app name is given
and the source is recorded as failed at the current mtime, None is returned
without attempting generation; (c) otherwise the size defaults to Large and
the result of create_thumbnail is returned. -/
def get_thumbnail_spec (e : Env) (fs : FS) (src : String) (size : Option SizeArg)
    (fail_appname : Option String) : Except PyErr (Option String × FS) := do
  match ← try_get_thumbnail e fs src size none with
  | some hit => .ok (some hit, fs)
  | none =>
    match fail_appname with
    | some app => do
      let current ← fs.getmtime src
      if (← is_thumbnail_failed e fs src app (some current)) then .ok (none, fs)
      else create_thumbnail e fs src (size.getD (.str "large")) none (some app)
    | none => create_thumbnail e fs src (size.getD (.str "large")) none none

/-! Operation traces for the atomic-writer claim. -/

/-- Filesystem operations observable while a cache entry is being written. -/
inductive FOp
  | mkstemp (dir : String) (tmp : String)
  | chmod (p : String)
  | save (p : String)
  | rename (a b : String)
  | move (a b : String)
deriving DecidableEq

/-- Operations of the private _mkstemp helper, lines 267-271: create a fresh
uniquely named file in the directory of dest and chmod it owner-only. -/
def mkstemp_ops (dest tmp : String) : List FOp := [.mkstemp (dirname dest) tmp, .chmod tmp]

/-- Operations of PilBackend.update_metadata on a target file, lines 491-499:
write a fresh temp beside it and rename the temp over it. -/
def pil_update_metadata_ops (target t2 : String) : List FOp :=
  mkstemp_ops target t2 ++ [.save t2, .rename t2 target]

/-- Operations of PilBackend.create_thumbnail writing dest, lines 451-468. -/
def pil_create_thumbnail_ops (dest t : String) : List FOp :=
  mkstemp_ops dest t ++ [.save t, .rename t dest]

/-- Operations of PilBackend.create_fail writing dest, lines 470-478. -/
def pil_create_fail_ops (dest t : String) : List FOp :=
  mkstemp_ops dest t ++ [.save t, .rename t dest]

/-- Operations of put_thumbnail, lines 377-394, with the PIL backend bound:
t1 names the temp of the first or third branch, t2 the temp that
update_metadata uses internally. -/
def put_thumbnail_ops (dest thumb t1 t2 : String) : List FOp :=
  let tmp := if dest = thumb then t1 else if dirname dest = dirname thumb then thumb else t1
  (if dest = thumb then mkstemp_ops dest t1 ++ [.rename dest t1]
   else if dirname dest = dirname thumb then []
   else mkstemp_ops dest t1 ++ [.move thumb t1])
  ++ pil_update_metadata_ops tmp t2
  ++ [.chmod tmp, .rename tmp dest]

/-- Whether an operation avoids writing file content directly at dest: saves,
move targets and chmods must not hit dest; a rename onto dest is the atomic
publish and is allowed. -/
def notDirectWrite (dest : String) : FOp → Bool
  | .save p => p != dest
  | .move _ b => b != dest
  | .chmod p => p != dest
  | _ => true

/-- Whether every temp file of a trace is created inside the given directory. -/
def mkstempIn (dir : String) : FOp → Bool
  | .mkstemp d _ => d == dir
  | _ => true

/-! Shared helper lemmas. -/

@[simp]
theorem bind_ok {α β : Type} (a : α) (f : α → Except PyErr β) :
    (Except.ok a >>= f) = f a := rfl

@[simp]
theorem bind_error {α β : Type} (err : PyErr) (f : α → Except PyErr β) :
    ((Except.error err : Except PyErr α) >>= f) = .error err := rfl

@[simp]
theorem pure_eq_ok {α : Type} (a : α) : (pure a : Except PyErr α) = .ok a := rfl

/-- A canonicalized local path always matches URI_RE through its file scheme. -/
theorem uriMatch_file (s : String) : uriMatch ("file://" ++ s) = true := by
  cases s with
  | mk l => rfl

@[simp]
theorem FS.lookup_set_self (fs : FS) (p : String) (d : FileData) :
    (fs.set p d).lookup p = some d := by
  simp [FS.set, FS.lookup]

@[simp]
theorem FS.exists_set_self (fs : FS) (p : String) (d : FileData) :
    (fs.set p d).exists_ p = true := by
  simp [FS.exists_]

/-- Lookup in an appended dict falls through to the right part when the left
part lacks the key. -/
theorem metaLookup_append_none {d1 : Meta} (d2 : Meta) {k : String}
    (h : metaLookup d1 k = none) : metaLookup (d1 ++ d2) k = metaLookup d2 k := by
  simp only [metaLookup, Option.map_eq_none'] at h
  simp only [metaLookup, List.find?_append, h, Option.none_or]

/-- A concrete witness environment: only PIL available, cache under the
default location, working directory of the user. -/
def envDemo : Env := ⟨"/home/user/.cache", "/home/user", false, false, true⟩

/-- A concrete environment in which no backend is available. -/
def envNoBackend : Env := ⟨"/home/user/.cache", "/home/user", false, false, false⟩

/-- C6: canonicalization returns a reference matching the scheme grammar
unchanged, converts anything else to a file URI of the absolute
percent-encoded path, and is idempotent. -/
theorem claim_C6_canonicalize_idempotent (cwd r : String) :
    _any2uri cwd r =
      (if uriMatch r then r else "file://" ++ pathname2url (abspath cwd r)) ∧
    _any2uri cwd (_any2uri cwd r) = _any2uri cwd r := by
  refine ⟨rfl, ?_⟩
  by_cases h : uriMatch r
  · simp [_any2uri, h]
  · simp [_any2uri, h, uriMatch_file]

/-- C4 (code bug): _any2size returns a bare int instead of a pair on the
numeric range branches, so build_thumbnail_path (like every public operation,
all of which subscript the result) raises TypeError on numeric sizes such as
100 or 200 that the specification maps to the Normal and Large classes;
out-of-range numbers raise ValueError and non-alias strings raise TypeError. -/
theorem claim_C4_numeric_sizes_break :
    _any2size (.int 100) = .ok (.bare 128) ∧
    (SizeRet.bare 128).sub1 = .error .typeError ∧
    build_thumbnail_path envDemo "/tmp/a.jpg" (.int 100) = .error .typeError ∧
    build_thumbnail_path envDemo "/tmp/a.jpg" (.int 200) = .error .typeError ∧
    _any2size (.int 300) = .error .valueError ∧
    _any2size (.str "100") = .error .typeError ∧
    _any2size (.str "normal") = .ok (.tup 128 "normal") ∧
    _any2size (.int 256) = .ok (.tup 256 "large") := by
  decide

/-- C7: for a valid size class the thumbnail path is the cache size directory
plus the lowercase hex MD5 of the UTF-8 canonical URI with a png extension,
except that a source already under that directory is returned unchanged, and
the identifier depends only on the canonical URI. -/
theorem claim_C7_thumbnail_path_shape (e : Env) (src : String) (size : SizeArg)
    (px : Nat) (sizename : String)
    (hsz : _any2size size = .ok (.tup px sizename)) :
    build_thumbnail_path e src size =
      .ok (if strStartsWith src (joinPath (thumbnailsDir e.xdgcache) sizename ++ "/")
           then src
           else joinPath (joinPath (thumbnailsDir e.xdgcache) sizename)
                  (md5hex (utf8str (_any2uri e.cwd src)) ++ ".png")) ∧
    hash_name e.cwd src = md5hex (utf8str (_any2uri e.cwd src)) ∧
    ∀ src2 : String, _any2uri e.cwd src = _any2uri e.cwd src2 →
      hash_name e.cwd src = hash_name e.cwd src2 := by
  refine ⟨?_, rfl, ?_⟩
  · simp only [build_thumbnail_path, hsz, bind_ok, SizeRet.sub1, hash_name]
    split <;> rfl
  · intro s2 h
    simp [hash_name, h]

/-- Witness for C7 at the large alias and a concrete source. -/
theorem claim_C7_witness :
    build_thumbnail_path envDemo "/tmp/a.jpg" (.str "large") =
      .ok "/home/user/.cache/thumbnails/large/fd3d4bbf23a83793d4c47b368af0416e.png" :=
  (claim_C7_thumbnail_path_shape envDemo "/tmp/a.jpg" (.str "large") 256 "large" rfl).1

/-- C9 (amended): the PIL reader raises KeyError for a missing mandatory key,
distinct from the ValueError an unparsable value raises, and never
substitutes a default; the Qt and Magick readers however report a missing
mandatory mtime key as the concrete value 0. -/
theorem claim_C9_get_info_missing_key (m m2 : Meta) (s2 : String)
    (hk : metaLookup m KEY_MTIME = none)
    (hk2 : metaLookup m2 KEY_MTIME = some s2)
    (hp2 : parsePyFloat s2 = none) :
    pil_get_info m = .error (.keyError KEY_MTIME) ∧
    pil_get_info m2 = .error .valueError ∧
    qt_get_info ⟨m, 0, 0, true, 1, 1⟩ = .ok (some ⟨0, qt_text m KEY_URI⟩) ∧
    magick_get_info ⟨m, 0, 0, true, 1, 1⟩ = .ok (some ⟨0, magick_attr m KEY_URI⟩) := by
  refine ⟨?_, ?_, ?_, ?_⟩
  · simp [pil_get_info, hk]
  · simp [pil_get_info, hk2, hp2]
  · simp [qt_get_info, qt_text, hk]
  · simp [magick_get_info, magick_attr, hk]

/-- Witness for C9 on concrete metadata lacking the mtime key and metadata
with an unparsable mtime value. -/
theorem claim_C9_witness :
    pil_get_info [(KEY_URI, "file:///a.png")] = .error (.keyError KEY_MTIME) ∧
    pil_get_info [(KEY_MTIME, "oops")] = .error .valueError ∧
    qt_get_info ⟨[(KEY_URI, "file:///a.png")], 0, 0, true, 1, 1⟩ =
      .ok (some ⟨0, "file:///a.png"⟩) ∧
    magick_get_info ⟨[(KEY_URI, "file:///a.png")], 0, 0, true, 1, 1⟩ =
      .ok (some ⟨0, "file:///a.png"⟩) :=
  claim_C9_get_info_missing_key [(KEY_URI, "file:///a.png")] [(KEY_MTIME, "oops")] "oops"
    (by decide) (by decide) (by decide)

/-- C9 counterexample: a stored record that lacks the mandatory mtime key is
nonetheless reported with the concrete mtime 0 by the Qt reader, so reading
is not free of silent default substitution as the claim states. -/
theorem claim_C9_counterexample :
    metaLookup [(KEY_URI, "file:///a.png")] KEY_MTIME = none ∧
    qt_get_info ⟨[(KEY_URI, "file:///a.png")], 0, 0, true, 1, 1⟩ =
      .ok (some ⟨0, "file:///a.png"⟩) := by
  decide

/-- C10: the mandatory metadata keys are only set through setdefault, so when
the caller's dict already binds Thumb::URI and Thumb::MTime the caller's
values are kept, the derived canonical URI and mtime are not written, and
put_fail stores exactly the caller's dict; when the keys are absent the
derived values are appended. -/
theorem claim_C10_moreinfo_overrides (e : Env) (fs : FS) (d d2 : Meta) (m : Int)
    (src app : String) (b : BackendKind)
    (hu : (metaLookup d KEY_URI).isSome) (ht : (metaLookup d KEY_MTIME).isSome)
    (hu2 : metaLookup d2 KEY_URI = none) (ht2 : metaLookup d2 KEY_MTIME = none)
    (hb : get_backend e = some b) :
    _info_dict fs e.cwd (some d) (some m) (some src) = .ok d ∧
    put_fail e fs src app (some m) (some d) =
      .ok (fail_path e src app, fs.set (fail_path e src app) (failFileData d)) ∧
    _info_dict fs e.cwd (some d2) (some m) (some src) =
      .ok ((d2 ++ [(KEY_MTIME, toString m)]) ++ [(KEY_URI, _any2uri e.cwd src)]) := by
  have h1 : _info_dict fs e.cwd (some d) (some m) (some src) = .ok d := by
    simp [_info_dict, dictSetdefault, hu, ht]
  refine ⟨h1, ?_, ?_⟩
  · simp [put_fail, h1, hb, backend_create_fail]
  · have hmt : metaLookup (d2 ++ [(KEY_MTIME, toString m)]) KEY_URI = none := by
      rw [metaLookup_append_none _ hu2]
      simp [metaLookup, KEY_MTIME, KEY_URI]
    simp [_info_dict, dictSetdefault, ht2, hmt]

/-- Witness for C10 with a caller dict that overrides both mandatory keys and
an empty dict that receives the derived defaults. -/
theorem claim_C10_witness :
    _info_dict ⟨[]⟩ envDemo.cwd (some [(KEY_URI, "http://custom/x"), (KEY_MTIME, "42")])
        (some 5) (some "/tmp/a.jpg") =
      .ok [(KEY_URI, "http://custom/x"), (KEY_MTIME, "42")] ∧
    put_fail envDemo ⟨[]⟩ "/tmp/a.jpg" "app-1.0" (some 5)
        (some [(KEY_URI, "http://custom/x"), (KEY_MTIME, "42")]) =
      .ok (fail_path envDemo "/tmp/a.jpg" "app-1.0",
           FS.set ⟨[]⟩ (fail_path envDemo "/tmp/a.jpg" "app-1.0")
             (failFileData [(KEY_URI, "http://custom/x"), (KEY_MTIME, "42")])) ∧
    _info_dict ⟨[]⟩ envDemo.cwd (some []) (some 5) (some "/tmp/a.jpg") =
      .ok [(KEY_MTIME, "5"), (KEY_URI, "file:///tmp/a.jpg")] :=
  claim_C10_moreinfo_overrides envDemo ⟨[]⟩
    [(KEY_URI, "http://custom/x"), (KEY_MTIME, "42")] [] 5 "/tmp/a.jpg" "app-1.0" .pil
    (by decide) (by decide) (by decide) (by decide) (by decide)

/-- Shape of build_thumbnail_path when the size parses to an alias pair. -/
theorem build_ok_of_tup (e : Env) (src : String) (size : SizeArg) (px : Nat) (nm : String)
    (hsz : _any2size size = .ok (.tup px nm)) :
    build_thumbnail_path e src size =
      .ok (if strStartsWith src (joinPath (thumbnailsDir e.xdgcache) nm ++ "/") then src
           else joinPath (joinPath (thumbnailsDir e.xdgcache) nm)
                  (hash_name e.cwd src ++ ".png")) := by
  simp only [build_thumbnail_path, hsz, bind_ok, SizeRet.sub1]
  split <;> rfl

/-- Validity characterization: the check passes exactly when the backend
reads back the expected URI and mtime. -/
theorem is_thumbnail_valid_ok_true (e : Env) (fs : FS) (p uri : String) (m : Int) :
    is_thumbnail_valid e fs p uri m = .ok true ↔
      backend_get_info e fs p = .ok (some ⟨m, uri⟩) := by
  unfold is_thumbnail_valid
  cases hgi : backend_get_info e fs p with
  | error er => simp [hgi]
  | ok oi =>
    cases oi with
    | none => simp [hgi]
    | some i =>
      simp only [hgi, bind_ok, Except.ok.injEq, Option.some.injEq, Bool.and_eq_true,
        beq_iff_eq]
      cases i with
      | mk mt u =>
        simp only [ThumbInfo.mk.injEq]
        constructor
        · rintro ⟨h1, h2⟩; exact ⟨h2, h1⟩
        · rintro ⟨h1, h2⟩; exact ⟨h2, h1⟩

/-- C2: is_thumbnail_failed returns true exactly when the fail marker exists
and its stored URI equals the canonical URI of the source and its stored
mtime equals the given mtime; and after put_fail at mtime 100, querying at
mtime 100 returns true while querying at mtime 200 returns false, the
obsolete marker reading as absent. -/
theorem claim_C2_is_thumbnail_failed (e : Env) (fs : FS) (src app : String) (m : Int)
    (b : BackendKind) (hb : get_backend e = some b) :
    (is_thumbnail_failed e fs src app (some m) = .ok true ↔
      fs.exists_ (fail_path e src app) = true ∧
      backend_get_info e fs (fail_path e src app) = .ok (some ⟨m, _any2uri e.cwd src⟩)) ∧
    put_fail e fs src app (some 100) none =
      .ok (fail_path e src app,
           fs.set (fail_path e src app)
             (failFileData [(KEY_MTIME, "100"), (KEY_URI, _any2uri e.cwd src)])) ∧
    is_thumbnail_failed e
        (fs.set (fail_path e src app)
          (failFileData [(KEY_MTIME, "100"), (KEY_URI, _any2uri e.cwd src)]))
        src app (some 100) = .ok true ∧
    is_thumbnail_failed e
        (fs.set (fail_path e src app)
          (failFileData [(KEY_MTIME, "100"), (KEY_URI, _any2uri e.cwd src)]))
        src app (some 200) = .ok false := by
  have h100 : toString (100 : Int) = "100" := by decide
  have hpf : parsePyFloat "100" = some 100 := by decide
  refine ⟨?_, ?_, ?_, ?_⟩
  · simp only [is_thumbnail_failed, _any2mtime, bind_ok]
    by_cases hex : fs.exists_ (fail_path e src app)
    · simp only [hex, if_true, is_thumbnail_valid_ok_true, true_and]
    · simp only [hex, if_false, Bool.false_eq_true, false_and, iff_false]
      intro hcontra
      exact absurd (Except.ok.inj hcontra) (by simp)
  · simp only [put_fail, _info_dict, dictSetdefault, metaLookup, List.find?, bind_ok,
      pure_eq_ok, hb, backend_create_fail, h100]
    rfl
  · rw [is_thumbnail_failed]
    simp only [_any2mtime, bind_ok, FS.exists_set_self, if_true]
    rw [is_thumbnail_valid_ok_true]
    rw [backend_get_info, hb]
    cases b <;>
      simp [FS.lookup_set_self, failFileData, pil_get_info, qt_get_info, magick_get_info,
        qt_text, magick_attr, metaLookup, List.find?, KEY_MTIME, KEY_URI, hpf]
  · rw [is_thumbnail_failed]
    simp only [_any2mtime, bind_ok, FS.exists_set_self, if_true]
    rw [is_thumbnail_valid]
    rw [backend_get_info, hb]
    cases b <;>
      simp [FS.lookup_set_self, failFileData, pil_get_info, qt_get_info, magick_get_info,
        qt_text, magick_attr, metaLookup, List.find?, KEY_MTIME, KEY_URI, hpf]

/-- Witness for C2 with the PIL backend, an empty cache and a local source. -/
theorem claim_C2_witness :
    (is_thumbnail_failed envDemo ⟨[]⟩ "/tmp/a.jpg" "app-1.0" (some 7) = .ok true ↔
      FS.exists_ ⟨[]⟩ (fail_path envDemo "/tmp/a.jpg" "app-1.0") = true ∧
      backend_get_info envDemo ⟨[]⟩ (fail_path envDemo "/tmp/a.jpg" "app-1.0") =
        .ok (some ⟨7, "file:///tmp/a.jpg"⟩)) ∧
    put_fail envDemo ⟨[]⟩ "/tmp/a.jpg" "app-1.0" (some 100) none =
      .ok (fail_path envDemo "/tmp/a.jpg" "app-1.0",
           FS.set ⟨[]⟩ (fail_path envDemo "/tmp/a.jpg" "app-1.0")
             (failFileData [(KEY_MTIME, "100"), (KEY_URI, "file:///tmp/a.jpg")])) ∧
    is_thumbnail_failed envDemo
        (FS.set ⟨[]⟩ (fail_path envDemo "/tmp/a.jpg" "app-1.0")
          (failFileData [(KEY_MTIME, "100"), (KEY_URI, "file:///tmp/a.jpg")]))
        "/tmp/a.jpg" "app-1.0" (some 100) = .ok true ∧
    is_thumbnail_failed envDemo
        (FS.set ⟨[]⟩ (fail_path envDemo "/tmp/a.jpg" "app-1.0")
          (failFileData [(KEY_MTIME, "100"), (KEY_URI, "file:///tmp/a.jpg")]))
        "/tmp/a.jpg" "app-1.0" (some 200) = .ok false :=
  claim_C2_is_thumbnail_failed envDemo ⟨[]⟩ "/tmp/a.jpg" "app-1.0" 7 .pil rfl

/-- C3: get_thumbnail follows the specification state machine: a try_get hit
is returned; otherwise when a fail app name is given and the source is
recorded failed at the current mtime, None is returned without attempting
generation; otherwise the size defaults to Large and the result of
create_thumbnail is returned. -/
theorem claim_C3_get_thumbnail_state_machine (e : Env) (fs : FS) (src : String)
    (size : Option SizeArg) (app : Option String) :
    get_thumbnail e fs src size app = get_thumbnail_spec e fs src size app := by
  unfold get_thumbnail get_thumbnail_spec
  cases htry : try_get_thumbnail e fs src size none with
  | error er => simp only [htry, bind_error]
  | ok r =>
    cases r with
    | some t => simp only [htry, bind_ok]
    | none =>
      cases app with
      | none => simp [htry]
      | some a =>
        simp only [htry, bind_ok, _any2mtime]

/-- C5 counterexample: with no backend available and an existing decodable
source file, create_thumbnail raises AttributeError (the get_backend()
fallthrough returned None and the method access on None raises) instead of
returning None as the claim states; put_fail raises the same way. -/
theorem claim_C5_counterexample :
    create_thumbnail envNoBackend (FS.set ⟨[]⟩ "/tmp/a.jpg" ⟨[], 1000, 50, true, 4, 4⟩)
        "/tmp/a.jpg" (.str "large") none none = .error .attributeError ∧
    put_fail envNoBackend ⟨[]⟩ "/tmp/a.jpg" "app-1.0" (some 0) none =
      .error .attributeError := by
  decide

/-- C5 (amended): with no backend available every generation operation raises
AttributeError rather than returning None, while the path-only derivation
still functions and returns the cache path. -/
theorem claim_C5_no_backend_raises (e : Env) (fs : FS) (src app thumb L N : String)
    (m : Int) (dta dtb : FileData)
    (hbe : get_backend e = none)
    (hsrc : fs.lookup src = some dta)
    (hthumb : fs.lookup thumb = some dtb)
    (hL : build_thumbnail_path e src (.str "large") = .ok L)
    (hN : build_thumbnail_path e src (.str "normal") = .ok N)
    (hexL : fs.exists_ L = false)
    (hexN : fs.exists_ N = false) :
    create_thumbnail e fs src (.str "large") none none = .error .attributeError ∧
    put_fail e fs src app (some m) none = .error .attributeError ∧
    put_thumbnail e fs src (.str "large") thumb (some m) none = .error .attributeError ∧
    get_thumbnail e fs src none none = .error .attributeError ∧
    build_thumbnail_path e src (.str "large") = .ok L := by
  have hsz : _any2size (SizeArg.str "large") = .ok (.tup 256 "large") := by decide
  have hkey : (KEY_MTIME == KEY_URI) = false := by decide
  have hcreate : create_thumbnail e fs src (.str "large") none none = .error .attributeError := by
    rw [create_thumbnail]
    simp [hsz, SizeRet.sub0, FS.getsize, hsrc,
      build_ok_of_tup e src (.int 256) 256 "large" (by decide),
      build_ok_of_tup e src (.int ((256 : Nat) : Int)) 256 "large" (by decide),
      _info_dict, FS.getmtime, dictSetdefault, metaLookup, hkey, hbe]
  refine ⟨hcreate, ?_, ?_, ?_, hL⟩
  · simp [put_fail, _info_dict, dictSetdefault, metaLookup, hkey, hbe]
  · rw [put_thumbnail]
    simp [build_ok_of_tup e src (.str "large") 256 "large" hsz, hthumb,
      _info_dict, dictSetdefault, metaLookup, hkey, hbe]
  · rw [get_thumbnail]
    have htry : try_get_thumbnail e fs src none none = .ok none := by
      rw [try_get_thumbnail]
      simp only [_any2mtime, FS.getmtime, hsrc, bind_ok, try_get_sizes, try_get_loop,
        hL, hN, hexL, hexN, Bool.false_eq_true, if_false]
    simp only [htry, bind_ok, pure_eq_ok, Option.getD]
    exact hcreate

/-- A concrete filesystem for the C5 witness: a decodable source image and a
caller-built thumbnail file, no cache entries. -/
def fsC5 : FS :=
  FS.set (FS.set ⟨[]⟩ "/tmp/a.jpg" ⟨[], 1000, 50, true, 4, 4⟩)
    "/tmp/t.png" ⟨[], 5, 10, true, 1, 1⟩

/-- Witness for C5 on a concrete no-backend environment. -/
theorem claim_C5_witness :
    create_thumbnail envNoBackend fsC5 "/tmp/a.jpg" (.str "large") none none =
      .error .attributeError ∧
    put_fail envNoBackend fsC5 "/tmp/a.jpg" "app-1.0" (some 3) none =
      .error .attributeError ∧
    put_thumbnail envNoBackend fsC5 "/tmp/a.jpg" (.str "large") "/tmp/t.png" (some 3) none =
      .error .attributeError ∧
    get_thumbnail envNoBackend fsC5 "/tmp/a.jpg" none none = .error .attributeError ∧
    build_thumbnail_path envNoBackend "/tmp/a.jpg" (.str "large") =
      .ok "/home/user/.cache/thumbnails/large/fd3d4bbf23a83793d4c47b368af0416e.png" :=
  claim_C5_no_backend_raises envNoBackend fsC5 "/tmp/a.jpg" "app-1.0" "/tmp/t.png"
    "/home/user/.cache/thumbnails/large/fd3d4bbf23a83793d4c47b368af0416e.png"
    "/home/user/.cache/thumbnails/normal/fd3d4bbf23a83793d4c47b368af0416e.png"
    3 ⟨[], 1000, 50, true, 4, 4⟩ ⟨[], 5, 10, true, 1, 1⟩
    (by decide) (by decide) (by decide) (by decide) (by decide) (by decide) (by decide)

/-- C1: with the size argument omitted, try_get_thumbnail probes the Large
path first and then the Normal path; a candidate is returned exactly when its
file exists and either it equals the source itself (self-reference bypass of
the validity check) or the stored URI equals the canonical URI of the source
and the stored mtime equals the given mtime; None results when no candidate
qualifies. -/
theorem claim_C1_try_get_probes (e : Env) (fs : FS) (src : String) (m : Int)
    (L N : String) (iL iN : ThumbInfo)
    (hL : build_thumbnail_path e src (.str "large") = .ok L)
    (hN : build_thumbnail_path e src (.str "normal") = .ok N)
    (hiL : backend_get_info e fs L = .ok (some iL))
    (hiN : backend_get_info e fs N = .ok (some iN)) :
    try_get_thumbnail e fs src none (some m) =
      .ok (if fs.exists_ L ∧ (src = L ∨ (iL.uri = _any2uri e.cwd src ∧ iL.mtime = m))
           then some L
           else if fs.exists_ N ∧ (src = N ∨ (iN.uri = _any2uri e.cwd src ∧ iN.mtime = m))
           then some N
           else none) := by
  have hvL : is_thumbnail_valid e fs L (_any2uri e.cwd src) m =
      .ok (iL.uri == _any2uri e.cwd src && iL.mtime == m) := by
    simp only [is_thumbnail_valid, hiL, bind_ok]
  have hvN : is_thumbnail_valid e fs N (_any2uri e.cwd src) m =
      .ok (iN.uri == _any2uri e.cwd src && iN.mtime == m) := by
    simp only [is_thumbnail_valid, hiN, bind_ok]
  rw [try_get_thumbnail]
  simp only [_any2mtime, bind_ok, try_get_sizes, try_get_loop, hL, hN, hvL, hvN]
  split_ifs <;> simp_all [Bool.and_eq_true, beq_iff_eq]

/-- A concrete cache for the C1 witness: a fresh Large entry and a stale
Normal entry for the same source. -/
def fsC1 : FS :=
  FS.set
    (FS.set ⟨[]⟩ "/home/user/.cache/thumbnails/normal/fd3d4bbf23a83793d4c47b368af0416e.png"
      ⟨[(KEY_MTIME, "3"), (KEY_URI, "file:///tmp/a.jpg")], 0, 0, true, 1, 1⟩)
    "/home/user/.cache/thumbnails/large/fd3d4bbf23a83793d4c47b368af0416e.png"
    ⟨[(KEY_MTIME, "7"), (KEY_URI, "file:///tmp/a.jpg")], 0, 0, true, 1, 1⟩

/-- Witness for C1: the fresh Large entry is found first at mtime 7. -/
theorem claim_C1_witness :
    try_get_thumbnail envDemo fsC1 "/tmp/a.jpg" none (some 7) =
      .ok (some "/home/user/.cache/thumbnails/large/fd3d4bbf23a83793d4c47b368af0416e.png") :=
  claim_C1_try_get_probes envDemo fsC1 "/tmp/a.jpg" 7
    "/home/user/.cache/thumbnails/large/fd3d4bbf23a83793d4c47b368af0416e.png"
    "/home/user/.cache/thumbnails/normal/fd3d4bbf23a83793d4c47b368af0416e.png"
    ⟨7, "file:///tmp/a.jpg"⟩ ⟨3, "file:///tmp/a.jpg"⟩
    (by decide) (by decide) (by decide) (by decide)

/-- C8: every cache-entry write of the module builds the content in a fresh
uniquely named temporary file created inside the destination directory and
publishes it by renaming it onto the destination: no save, move target or
chmod ever touches the destination path itself, in all three branches of
put_thumbnail and in the backend thumbnail, fail-marker and metadata-update
writers. -/
theorem claim_C8_atomic_writes (dest thumb t1 t2 : String)
    (h1 : t1 ≠ dest) (h2 : t2 ≠ dest)
    (hd1 : dirname t1 = dirname dest) :
    ((put_thumbnail_ops dest thumb t1 t2).all (notDirectWrite dest) = true ∧
     (put_thumbnail_ops dest thumb t1 t2).all (mkstempIn (dirname dest)) = true ∧
     (put_thumbnail_ops dest thumb t1 t2).getLast? =
       some (.rename (if dest = thumb then t1
                      else if dirname dest = dirname thumb then thumb else t1) dest)) ∧
    ((pil_create_thumbnail_ops dest t1).all (notDirectWrite dest) = true ∧
     (pil_create_thumbnail_ops dest t1).all (mkstempIn (dirname dest)) = true ∧
     (pil_create_thumbnail_ops dest t1).getLast? = some (.rename t1 dest)) ∧
    ((pil_create_fail_ops dest t1).all (notDirectWrite dest) = true ∧
     (pil_create_fail_ops dest t1).all (mkstempIn (dirname dest)) = true ∧
     (pil_create_fail_ops dest t1).getLast? = some (.rename t1 dest)) ∧
    ((pil_update_metadata_ops dest t2).all (notDirectWrite dest) = true ∧
     (pil_update_metadata_ops dest t2).all (mkstempIn (dirname dest)) = true ∧
     (pil_update_metadata_ops dest t2).getLast? = some (.rename t2 dest)) := by
  refine ⟨?_, ?_, ?_, ?_⟩
  · by_cases hdt : dest = thumb
    · subst hdt
      simp [put_thumbnail_ops, pil_update_metadata_ops, mkstemp_ops, notDirectWrite,
        mkstempIn, bne_iff_ne, h1, h2, hd1]
    · by_cases hdd : dirname dest = dirname thumb
      · have hts : thumb ≠ dest := fun hh => hdt hh.symm
        simp [put_thumbnail_ops, pil_update_metadata_ops, mkstemp_ops, notDirectWrite,
          mkstempIn, hdt, hdd, bne_iff_ne, h1, h2, hts]
      · simp [put_thumbnail_ops, pil_update_metadata_ops, mkstemp_ops, notDirectWrite,
          mkstempIn, hdt, hdd, bne_iff_ne, h1, h2, hd1]
  · simp [pil_create_thumbnail_ops, mkstemp_ops, notDirectWrite, mkstempIn,
      bne_iff_ne, h1]
  · simp [pil_create_fail_ops, mkstemp_ops, notDirectWrite, mkstempIn, bne_iff_ne, h1]
  · simp [pil_update_metadata_ops, mkstemp_ops, notDirectWrite, mkstempIn, bne_iff_ne, h2]

/-- Witness for C8 with a destination in the large cache directory, a caller
thumbnail in another directory, and two fresh temps beside the destination. -/
theorem claim_C8_witness :
    ((put_thumbnail_ops "/c/large/x.png" "/tmp/t.png" "/c/large/tmpa.png"
        "/c/large/tmpb.png").all (notDirectWrite "/c/large/x.png") = true ∧
     (put_thumbnail_ops "/c/large/x.png" "/tmp/t.png" "/c/large/tmpa.png"
        "/c/large/tmpb.png").all (mkstempIn (dirname "/c/large/x.png")) = true ∧
     (put_thumbnail_ops "/c/large/x.png" "/tmp/t.png" "/c/large/tmpa.png"
        "/c/large/tmpb.png").getLast? =
       some (.rename (if "/c/large/x.png" = "/tmp/t.png" then "/c/large/tmpa.png"
                      else if dirname "/c/large/x.png" = dirname "/tmp/t.png"
                      then "/tmp/t.png" else "/c/large/tmpa.png") "/c/large/x.png")) ∧
    ((pil_create_thumbnail_ops "/c/large/x.png" "/c/large/tmpa.png").all
        (notDirectWrite "/c/large/x.png") = true ∧
     (pil_create_thumbnail_ops "/c/large/x.png" "/c/large/tmpa.png").all
        (mkstempIn (dirname "/c/large/x.png")) = true ∧
     (pil_create_thumbnail_ops "/c/large/x.png" "/c/large/tmpa.png").getLast? =
       some (.rename "/c/large/tmpa.png" "/c/large/x.png")) ∧
    ((pil_create_fail_ops "/c/large/x.png" "/c/large/tmpa.png").all
        (notDirectWrite "/c/large/x.png") = true ∧
     (pil_create_fail_ops "/c/large/x.png" "/c/large/tmpa.png").all
        (mkstempIn (dirname "/c/large/x.png")) = true ∧
     (pil_create_fail_ops "/c/large/x.png" "/c/large/tmpa.png").getLast? =
       some (.rename "/c/large/tmpa.png" "/c/large/x.png")) ∧
    ((pil_update_metadata_ops "/c/large/x.png" "/c/large/tmpb.png").all
        (notDirectWrite "/c/large/x.png") = true ∧
     (pil_update_metadata_ops "/c/large/x.png" "/c/large/tmpb.png").all
        (mkstempIn (dirname "/c/large/x.png")) = true ∧
     (pil_update_metadata_ops "/c/large/x.png" "/c/large/tmpb.png").getLast? =
       some (.rename "/c/large/tmpb.png" "/c/large/x.png")) :=
  claim_C8_atomic_writes "/c/large/x.png" "/tmp/t.png" "/c/large/tmpa.png"
    "/c/large/tmpb.png" (by decide) (by decide) (by decide)

end Vignette
